import Mathlib

/-!
# Token lifecycle of the selling-partner SDK

A shallow embedding of `pkg/selling-partner/selling-partner.go`
(`Config.IsValid`, `NewSellingPartner`, `SellingPartner.RefreshToken`,
`SellingPartner.OAuth2`, `SellingPartner.AuthorizeRequest`) and theorems about it.

Modelling conventions.

* Strings are Lean strings; `x == ""` in Go is `x = ""` here.
* A Go `error` is a value of `GoError`; the `nil` error is `none`.
  The two package-level sentinels are constructors of their own, so a value
  made later by `errors.New` with the same text is a different error, as it is
  in Go where errors made by `errors.New` compare by identity.
* `time.Time` is an instant counted in nanoseconds from Go's zero instant
  (January 1, year 1, 00:00:00 UTC).  Every instant the program handles went
  through `UTC()`, which strips the monotonic clock reading, so comparisons are
  comparisons of wall-clock instants.  `time.Duration` is a signed 64-bit count
  of nanoseconds and its multiplication wraps around.
* The collaborators are inputs: the clock readings (`now`), and the token
  endpoint, a function from the request that `http.Post` sends to what comes
  back from `http.Post`, `io.ReadAll` and `json.Unmarshal` together.
* Effects are recorded in a trace: entering `RefreshToken`, each `http.Post`,
  each `log.Errorf` line.
* The manager's `cfg` pointer is taken to be non-nil (as `NewSellingPartner`
  leaves it) and a request's header map to be allocated (as `http.NewRequest`
  leaves it); with a nil one the Go code panics.
-/

namespace SellingPartnerSDK

/-! ## Errors -/

/-- Go error values that occur in the package. -/
inductive GoError where
  /-- The package variable `ErrRefreshTokenNeeded`. -/
  | ErrRefreshTokenNeeded
  /-- The package variable `ErrRefreshTokenFail`. -/
  | ErrRefreshTokenFail
  /-- A value made by `errors.New(s)`, or by `fmt.Errorf` with a format that has
  no `%w` verb (which ends in `errors.New` too). It has no `Unwrap` method. -/
  | errorString (s : String)
  /-- An error handed back by `net/http`, `io` or `encoding/json` that has no
  `Unwrap` method, with its message. -/
  | collaborator (msg : String)
  /-- An error handed back by a collaborator that has an `Unwrap` method
  (for example `*url.Error`), with its message and its cause. -/
  | collaboratorWrap (msg : String) (cause : GoError)
deriving DecidableEq, Repr

/-- The method `Error()`: the message of an error. -/
def GoError.Error : GoError → String
  | .ErrRefreshTokenNeeded => "refresh token is needed"
  | .ErrRefreshTokenFail => "refresh token fail"
  | .errorString s => s
  | .collaborator msg => msg
  | .collaboratorWrap msg _ => msg

/-- The function `errors.Unwrap`: the cause of an error that has an `Unwrap`
method, and nil otherwise. -/
def GoError.Unwrap : GoError → Option GoError
  | .collaboratorWrap _ cause => some cause
  | _ => none

/-- The function `errors.Is`: whether `target` is reached from `err` along the
chain of `Unwrap`. Values are compared structurally, which can only say yes more
often than the identity comparison of Go. -/
def errorsIs : GoError → GoError → Bool
  | .collaboratorWrap msg cause, target =>
      decide (GoError.collaboratorWrap msg cause = target) || errorsIs cause target
  | e, target => decide (e = target)

/-- Whether the text `needle` occurs inside the text `hay`. -/
def containsText (hay needle : String) : Bool :=
  decide (needle.toList <:+: hay.toList)

/-! ## Time -/

/-- A `time.Duration`: nanoseconds, a signed 64-bit integer in Go. -/
abbrev Duration := Int

/-- The value a signed 64-bit integer takes after an operation whose exact
result is `x`: two's complement wrap-around. -/
def wrapInt64 (x : Int) : Int := (x + 2 ^ 63) % 2 ^ 64 - 2 ^ 63

/-- The constant `time.Second`. -/
def Second : Duration := 1000000000

/-- The constant `time.Minute`. -/
def Minute : Duration := 60 * Second

/-- The multiplication of two durations, as Go computes it on `int64`. -/
def Duration.mul (a b : Duration) : Duration := wrapInt64 (a * b)

/-- An instant: nanoseconds elapsed since Go's zero instant. Instants are not
bounded here; in Go they reach about 292 billion years to either side of the
zero instant, where `Add` saturates, far from any reading of the clock. -/
structure Time where
  nsec : Int
deriving DecidableEq, Repr

/-- The zero value of `time.Time`. -/
def Time.zero : Time := ⟨0⟩

/-- The method `IsZero`. -/
def Time.IsZero (t : Time) : Bool := decide (t.nsec = 0)

/-- The method `UTC`: the same instant, located in UTC, without monotonic reading. -/
def Time.UTC (t : Time) : Time := t

/-- The method `Add`. -/
def Time.Add (t : Time) (d : Duration) : Time := ⟨t.nsec + d⟩

/-- The method `Round`: for `d ≤ 0` the instant itself (only the monotonic
reading is stripped), otherwise the nearest multiple of `d` since the zero
instant, halfway values rounding up. -/
def Time.Round (t : Time) (d : Duration) : Time :=
  if d ≤ 0 then t
  else
    let r := t.nsec % d
    if r + r < d then t.Add (-r) else t.Add (d - r)

/-- The method `Before`: strictly earlier. -/
def Time.Before (t u : Time) : Bool := decide (t.nsec < u.nsec)

/-! ## Data model -/

/-- The struct `AccessTokenResponse`. `ExpiresIn` is a Go `int`, on a 64-bit platform
an integer from `-2 ^ 63` to `2 ^ 63 - 1`. -/
structure AccessTokenResponse where
  AccessToken : String
  RefreshToken : String
  TokenType : String
  ExpiresIn : Int
  Error : String
  ErrorDescription : String
deriving DecidableEq, Repr

/-- The struct `Config`. -/
structure Config where
  ClientID : String
  ClientSecret : String
  RefreshToken : String
deriving DecidableEq, Repr

/-- The struct `SellingPartner`. -/
structure SellingPartner where
  cfg : Config
  accessToken : String
  accessTokenExpiry : Time
deriving DecidableEq, Repr

/-- What `http.Post(url, contentType, body)` is given; `body` is the map handed
to `json.Marshal`, entry by entry. -/
structure TokenRequest where
  url : String
  contentType : String
  body : List (String × String)
deriving DecidableEq, Repr

/-- What comes back from the token endpoint, as far as the code looks at it. -/
inductive TokenEndpointOutcome where
  /-- The call `http.Post` returned the error `err`. -/
  | postFailed (err : GoError)
  /-- The call `io.ReadAll(resp.Body)` returned the error `err`. -/
  | readFailed (err : GoError)
  /-- The body was read and `json.Unmarshal` returned the error `err`. -/
  | unmarshalFailed (body : String) (err : GoError)
  /-- The body was read and `json.Unmarshal` filled `theResp`. -/
  | parsed (body : String) (theResp : AccessTokenResponse)
deriving DecidableEq, Repr

/-- The observable steps of a call. -/
inductive Event where
  /-- The method `RefreshToken` was entered. -/
  | enterRefreshToken
  /-- The call `http.Post` was made with this request. -/
  | httpPost (req : TokenRequest)
  /-- The call `log.Errorf` wrote this message. -/
  | logErrorf (msg : String)
deriving DecidableEq, Repr

/-- Whether an event is a call of the token endpoint. -/
def Event.isHttpPost : Event → Bool
  | .httpPost _ => true
  | _ => false

/-- The outcome of `RefreshToken` or `OAuth2`: the manager afterwards, the
returned error, and what was done on the way. -/
structure CallResult where
  s : SellingPartner
  err : Option GoError
  trace : List Event
deriving DecidableEq, Repr

/-- The header map of a request: for each key in canonical MIME form the list of
its values, empty when the key is absent. -/
abbrev Header := String → List String

/-- The method `Header.Add`: appends `value` to the values of `key`. The key that
the package passes, `X-Amz-Access-Token`, is its own canonical form. -/
def Header.Add (h : Header) (key value : String) : Header :=
  fun k => if k = key then h k ++ [value] else h k

/-- The method `Header.Get`: the first value of `key`, or the empty string. -/
def Header.Get (h : Header) (key : String) : String :=
  match h key with
  | [] => ""
  | v :: _ => v

/-- The part of `http.Request` that matters here. -/
structure Request where
  Method : String
  URL : String
  Header : Header

/-- The outcome of `AuthorizeRequest`: the manager and the request afterwards,
the returned error, and what was done on the way. -/
structure AuthorizeResult where
  s : SellingPartner
  r : Request
  err : Option GoError
  trace : List Event

/-! ## Operations -/

/-- The method `Config.IsValid`. -/
def Config.IsValid (o : Config) : Bool × Option GoError :=
  if o.RefreshToken = "" then
    (false, some (.errorString "refresh token is required"))
  else if o.ClientID = "" then
    (false, some (.errorString "client id is required"))
  else if o.ClientSecret = "" then
    (false, some (.errorString "client secret is required"))
  else
    (true, none)

/-- The function `NewSellingPartner`. -/
def NewSellingPartner (cfg : Config) : Option SellingPartner × Option GoError :=
  match cfg.IsValid with
  | (false, err) => (none, err)
  | (true, _) => (some { cfg := cfg, accessToken := "", accessTokenExpiry := Time.zero }, none)

/-- The address of the token endpoint. -/
def tokenURL : String := "https://api.amazon.com/auth/o2/token"

/-- The request that `RefreshToken` posts. -/
def refreshTokenRequest (s : SellingPartner) : TokenRequest :=
  { url := tokenURL
    contentType := "application/json"
    body := [("grant_type", "refresh_token"),
             ("refresh_token", s.cfg.RefreshToken),
             ("client_id", s.cfg.ClientID),
             ("client_secret", s.cfg.ClientSecret)] }

/-- The request that `OAuth2` posts. -/
def oauth2Request (s : SellingPartner) (code : String) : TokenRequest :=
  { url := tokenURL
    contentType := "application/json"
    body := [("grant_type", "authorization_code"),
             ("code", code),
             ("client_id", s.cfg.ClientID),
             ("client_secret", s.cfg.ClientSecret)] }

/-- The method `SellingPartner.RefreshToken`. `now` is what `time.Now()` reads when
the token is stored. -/
def SellingPartner.RefreshToken (s : SellingPartner)
    (post : TokenRequest → TokenEndpointOutcome) (now : Time) : CallResult :=
  if s.cfg.RefreshToken = "" then
    { s := s, err := some .ErrRefreshTokenNeeded, trace := [.enterRefreshToken] }
  else
    let req := refreshTokenRequest s
    match post req with
    | .postFailed err =>
        { s := s, err := some err, trace := [.enterRefreshToken, .httpPost req] }
    | .readFailed err =>
        { s := s, err := some err, trace := [.enterRefreshToken, .httpPost req] }
    | .unmarshalFailed body err =>
        -- the format has no verb, so `Errorf` appends the argument as an extra one
        { s := s, err := some err,
          trace := [.enterRefreshToken, .httpPost req,
            .logErrorf ("RefreshToken response parse failed. Body: "
              ++ "%!(EXTRA string=" ++ body ++ ")")] }
    | .parsed body theResp =>
        if theResp.AccessToken ≠ "" then
          { s := { s with
                    accessToken := theResp.AccessToken
                    accessTokenExpiry := now.UTC.Add (Duration.mul theResp.ExpiresIn Second) }
            err := none
            trace := [.enterRefreshToken, .httpPost req] }
        else if theResp.Error ≠ "" then
          { s := s, err := some (.errorString theResp.Error),
            trace := [.enterRefreshToken, .httpPost req,
              .logErrorf ("RefreshToken failed with code " ++ theResp.Error
                ++ ", description " ++ theResp.ErrorDescription)] }
        else
          { s := s, err := some .ErrRefreshTokenFail,
            trace := [.enterRefreshToken, .httpPost req,
              .logErrorf ("RefreshToken failed with unknown reason. Body: " ++ body)] }

/-- The method `SellingPartner.OAuth2`. `now` is what `time.Now()` reads when the
token is stored. -/
def SellingPartner.OAuth2 (s : SellingPartner)
    (post : TokenRequest → TokenEndpointOutcome) (now : Time) (code : String) : CallResult :=
  let req := oauth2Request s code
  match post req with
  | .postFailed err =>
      { s := s, err := some (.errorString ("RefreshToken call failed with error " ++ err.Error)),
        trace := [.httpPost req] }
  | .readFailed err =>
      { s := s, err := some (.errorString ("RefreshToken read response with error " ++ err.Error)),
        trace := [.httpPost req] }
  | .unmarshalFailed body _ =>
      { s := s, err := some (.errorString ("RefreshToken response parse failed. Body: " ++ body)),
        trace := [.httpPost req] }
  | .parsed body theResp =>
      if theResp.AccessToken ≠ "" then
        { s := { s with
                  accessToken := theResp.AccessToken
                  accessTokenExpiry := now.UTC.Add (Duration.mul theResp.ExpiresIn Second) }
          err := none
          trace := [.httpPost req] }
      else if theResp.Error ≠ "" then
        { s := s,
          err := some (.errorString ("RefreshToken failed with code " ++ theResp.Error
            ++ ", description " ++ theResp.ErrorDescription)),
          trace := [.httpPost req] }
      else
        { s := s,
          err := some (.errorString ("RefreshToken failed with unknown reason. Body: " ++ body)),
          trace := [.httpPost req] }

/-- The constant `expiryDelta`. -/
def expiryDelta : Duration := 1 * Minute

/-- The condition of the `if` in `AuthorizeRequest`; `now` is what `time.Now()`
reads there. -/
def SellingPartner.tokenUnusable (s : SellingPartner) (now : Time) : Bool :=
  decide (s.accessToken = "") ||
    s.accessTokenExpiry.IsZero ||
    ((s.accessTokenExpiry.Round 0).Add (-expiryDelta)).Before now.UTC

/-- The method `SellingPartner.AuthorizeRequest`. `now` is what `time.Now()` reads in
the staleness check, `nowRefresh` what it reads inside `RefreshToken`. -/
def SellingPartner.AuthorizeRequest (s : SellingPartner)
    (post : TokenRequest → TokenEndpointOutcome) (now nowRefresh : Time) (r : Request) :
    AuthorizeResult :=
  if s.tokenUnusable now then
    let res := s.RefreshToken post nowRefresh
    match res.err with
    | some err =>
        { s := res.s, r := r,
          err := some (.errorString ("cannot refresh token. Error: " ++ err.Error)),
          trace := res.trace }
    | none =>
        { s := res.s,
          r := { r with Header := r.Header.Add "X-Amz-Access-Token" res.s.accessToken },
          err := none, trace := res.trace }
  else
    { s := s,
      r := { r with Header := r.Header.Add "X-Amz-Access-Token" s.accessToken },
      err := none, trace := [] }

/-! ## The specification's wording, for comparison -/

/-- The staleness check as the specification words it: the token is empty, or
the expiry is the zero value, or the expiry minus one minute is at or before
`now`. -/
def specTokenUnusable (s : SellingPartner) (now : Time) : Prop :=
  s.accessToken = "" ∨ s.accessTokenExpiry = Time.zero ∨
    s.accessTokenExpiry.nsec - 60 * 1000000000 ≤ now.nsec

/-- A complete configuration. -/
def sampleConfig : Config :=
  { ClientID := "client-id", ClientSecret := "client-secret", RefreshToken := "refresh-token" }

/-- An instant in November 2026. -/
def sampleNow : Time := ⟨63929088000000000000⟩

/-- A manager that has no token yet. -/
def freshManager : SellingPartner :=
  { cfg := sampleConfig, accessToken := "", accessTokenExpiry := Time.zero }

/-- A manager that holds the token `cached` until `expiry`. -/
def managerWith (expiry : Time) : SellingPartner :=
  { cfg := sampleConfig, accessToken := "cached", accessTokenExpiry := expiry }

/-- A manager whose configuration has lost its refresh token. -/
def managerWithoutRefreshToken : SellingPartner :=
  { cfg := { ClientID := "client-id", ClientSecret := "client-secret", RefreshToken := "" }
    accessToken := "cached"
    accessTokenExpiry := sampleNow }

/-- A request without headers. -/
def bareRequest : Request :=
  { Method := "GET", URL := "https://sellingpartnerapi-na.amazon.com/orders/v0/orders",
    Header := fun _ => [] }

/-- A request that already carries a token header. -/
def requestWithToken : Request :=
  { Method := "GET", URL := "https://sellingpartnerapi-na.amazon.com/orders/v0/orders",
    Header := fun k => if k = "X-Amz-Access-Token" then ["old"] else [] }

/-- A token response with the given fields and nothing else. -/
def response (accessToken : String) (expiresIn : Int) (error description : String) :
    AccessTokenResponse :=
  { AccessToken := accessToken, RefreshToken := "", TokenType := "", ExpiresIn := expiresIn,
    Error := error, ErrorDescription := description }

/-- A token endpoint that answers every request with the same outcome. -/
def always (o : TokenEndpointOutcome) : TokenRequest → TokenEndpointOutcome := fun _ => o

/-! ## Helper lemmas -/

theorem tokenUnusable_iff (s : SellingPartner) (now : Time) :
    s.tokenUnusable now = true ↔
      (s.accessToken = "" ∨ s.accessTokenExpiry = Time.zero ∨
        s.accessTokenExpiry.nsec - 60 * 1000000000 < now.nsec) := by
  have hz : s.accessTokenExpiry = Time.zero ↔ s.accessTokenExpiry.nsec = 0 := by
    cases h : s.accessTokenExpiry
    simp [Time.zero]
  simp only [SellingPartner.tokenUnusable, Time.IsZero, Time.Round, Time.Add, Time.Before,
    Time.UTC, expiryDelta, Minute, Second, Bool.or_eq_true, decide_eq_true_eq, le_refl,
    if_true, hz]
  constructor
  · rintro ((h | h) | h)
    · exact Or.inl h
    · exact Or.inr (Or.inl h)
    · exact Or.inr (Or.inr (by omega))
  · rintro (h | h | h)
    · exact Or.inl (Or.inl h)
    · exact Or.inl (Or.inr h)
    · exact Or.inr (by omega)

theorem refreshToken_trace_head (s : SellingPartner)
    (post : TokenRequest → TokenEndpointOutcome) (now : Time) :
    Event.enterRefreshToken ∈ (s.RefreshToken post now).trace := by
  unfold SellingPartner.RefreshToken
  by_cases h : s.cfg.RefreshToken = ""
  · simp [h]
  · cases hp : post (refreshTokenRequest s) with
    | postFailed e => simp [h, hp]
    | readFailed e => simp [h, hp]
    | unmarshalFailed b e => simp [h, hp]
    | parsed b resp =>
        simp only [h, hp, if_false]
        split_ifs <;> simp

theorem refreshToken_failure_keeps_state (s : SellingPartner)
    (post : TokenRequest → TokenEndpointOutcome) (now : Time)
    (h : (s.RefreshToken post now).err ≠ none) : (s.RefreshToken post now).s = s := by
  unfold SellingPartner.RefreshToken at h ⊢
  by_cases h0 : s.cfg.RefreshToken = ""
  · simp [h0]
  · cases hp : post (refreshTokenRequest s) with
    | postFailed e => simp [h0, hp]
    | readFailed e => simp [h0, hp]
    | unmarshalFailed b e => simp [h0, hp]
    | parsed b resp =>
        simp only [h0, hp, if_false] at h ⊢
        split_ifs with h1 h2
        · rw [if_pos h1] at h
          exact absurd rfl h
        · rfl
        · rfl

theorem oauth2_failure_keeps_state (s : SellingPartner)
    (post : TokenRequest → TokenEndpointOutcome) (now : Time) (code : String)
    (h : (s.OAuth2 post now code).err ≠ none) : (s.OAuth2 post now code).s = s := by
  unfold SellingPartner.OAuth2 at h ⊢
  cases hp : post (oauth2Request s code) with
  | postFailed e => simp [hp]
  | readFailed e => simp [hp]
  | unmarshalFailed b e => simp [hp]
  | parsed b resp =>
      simp only [hp] at h ⊢
      split_ifs with h1 h2
      · rw [if_pos h1] at h
        exact absurd rfl h
      · rfl
      · rfl

theorem authorizeRequest_of_refresh_error (s : SellingPartner)
    (post : TokenRequest → TokenEndpointOutcome) (now nowRefresh : Time) (r : Request)
    (e : GoError) (h : s.tokenUnusable now = true)
    (he : (s.RefreshToken post nowRefresh).err = some e) :
    s.AuthorizeRequest post now nowRefresh r =
      { s := (s.RefreshToken post nowRefresh).s, r := r,
        err := some (.errorString ("cannot refresh token. Error: " ++ e.Error)),
        trace := (s.RefreshToken post nowRefresh).trace } := by
  unfold SellingPartner.AuthorizeRequest
  rw [if_pos h]
  simp only [he]

theorem authorizeRequest_of_refresh_ok (s : SellingPartner)
    (post : TokenRequest → TokenEndpointOutcome) (now nowRefresh : Time) (r : Request)
    (h : s.tokenUnusable now = true)
    (he : (s.RefreshToken post nowRefresh).err = none) :
    s.AuthorizeRequest post now nowRefresh r =
      { s := (s.RefreshToken post nowRefresh).s,
        r := { r with
                Header :=
                  r.Header.Add "X-Amz-Access-Token" (s.RefreshToken post nowRefresh).s.accessToken },
        err := none,
        trace := (s.RefreshToken post nowRefresh).trace } := by
  unfold SellingPartner.AuthorizeRequest
  rw [if_pos h]
  simp only [he]

theorem authorizeRequest_trace_of_unusable (s : SellingPartner)
    (post : TokenRequest → TokenEndpointOutcome) (now nowRefresh : Time) (r : Request)
    (h : s.tokenUnusable now = true) :
    (s.AuthorizeRequest post now nowRefresh r).trace = (s.RefreshToken post nowRefresh).trace := by
  cases he : (s.RefreshToken post nowRefresh).err with
  | none => rw [authorizeRequest_of_refresh_ok s post now nowRefresh r h he]
  | some e => rw [authorizeRequest_of_refresh_error s post now nowRefresh r e h he]

theorem authorizeRequest_of_usable (s : SellingPartner)
    (post : TokenRequest → TokenEndpointOutcome) (now nowRefresh : Time) (r : Request)
    (h : s.tokenUnusable now = false) :
    s.AuthorizeRequest post now nowRefresh r =
      { s := s, r := { r with Header := r.Header.Add "X-Amz-Access-Token" s.accessToken },
        err := none, trace := [] } := by
  unfold SellingPartner.AuthorizeRequest
  rw [if_neg (by simp [h])]

theorem authorizeRequest_enters_iff (s : SellingPartner)
    (post : TokenRequest → TokenEndpointOutcome) (now nowRefresh : Time) (r : Request) :
    Event.enterRefreshToken ∈ (s.AuthorizeRequest post now nowRefresh r).trace ↔
      s.tokenUnusable now = true := by
  cases h : s.tokenUnusable now
  · rw [authorizeRequest_of_usable s post now nowRefresh r h]
    simp
  · rw [authorizeRequest_trace_of_unusable s post now nowRefresh r h]
    simp [refreshToken_trace_head]

/-! ## Configuration -/

/-- C6: `IsValid` returns `(true, nil)` exactly when the refresh token, the client
id and the client secret are all non-empty; otherwise it returns `false` with the
error that names the first empty field, in the order refresh token, client id,
client secret. -/
theorem isValid_reports_first_missing_field (o : Config) :
    (o.IsValid = (true, none) ↔
      o.RefreshToken ≠ "" ∧ o.ClientID ≠ "" ∧ o.ClientSecret ≠ "") ∧
    (o.RefreshToken = "" →
      o.IsValid = (false, some (.errorString "refresh token is required"))) ∧
    (o.RefreshToken ≠ "" → o.ClientID = "" →
      o.IsValid = (false, some (.errorString "client id is required"))) ∧
    (o.RefreshToken ≠ "" → o.ClientID ≠ "" → o.ClientSecret = "" →
      o.IsValid = (false, some (.errorString "client secret is required"))) := by
  unfold Config.IsValid
  refine ⟨?_, ?_, ?_, ?_⟩
  · by_cases h1 : o.RefreshToken = "" <;> by_cases h2 : o.ClientID = "" <;>
      by_cases h3 : o.ClientSecret = "" <;> simp [h1, h2, h3]
  · intro h1
    simp [h1]
  · intro h1 h2
    simp [h1, h2]
  · intro h1 h2 h3
    simp [h1, h2, h3]

/-- C6, on concrete configurations: a complete one is valid, one with every field
empty reports the refresh token, one that lacks the client id and the client
secret reports the client id, one that lacks only the client secret reports it. -/
theorem isValid_reports_first_missing_field_witness :
    sampleConfig.IsValid = (true, none) ∧
    (Config.mk "" "" "").IsValid = (false, some (.errorString "refresh token is required")) ∧
    (Config.mk "" "" "refresh-token").IsValid =
      (false, some (.errorString "client id is required")) ∧
    (Config.mk "client-id" "" "refresh-token").IsValid =
      (false, some (.errorString "client secret is required")) :=
  ⟨(isValid_reports_first_missing_field sampleConfig).1.2
      ⟨by decide, by decide, by decide⟩,
    (isValid_reports_first_missing_field (Config.mk "" "" "")).2.1 rfl,
    (isValid_reports_first_missing_field (Config.mk "" "" "refresh-token")).2.2.1
      (by decide) rfl,
    (isValid_reports_first_missing_field (Config.mk "client-id" "" "refresh-token")).2.2.2
      (by decide) (by decide) rfl⟩

/-! ## Refreshing without a refresh token -/

/-- C10: when the configured refresh token is empty, `RefreshToken` returns the
sentinel `ErrRefreshTokenNeeded`, whatever the client id, the client secret and
the cached token are, and it has not called the token endpoint: its trace holds
the entry into the method and nothing else. -/
theorem refreshToken_without_refresh_token (s : SellingPartner)
    (post : TokenRequest → TokenEndpointOutcome) (now : Time)
    (h : s.cfg.RefreshToken = "") :
    (s.RefreshToken post now).err = some .ErrRefreshTokenNeeded ∧
    (s.RefreshToken post now).trace = [.enterRefreshToken] ∧
    (∀ e ∈ (s.RefreshToken post now).trace, e.isHttpPost = false) ∧
    (s.RefreshToken post now).s = s := by
  unfold SellingPartner.RefreshToken
  simp [h, Event.isHttpPost]

/-- C10, on a manager that holds a token and whose configuration has an empty
refresh token, in front of an endpoint that would hand out a token. -/
theorem refreshToken_without_refresh_token_witness :
    managerWithoutRefreshToken.cfg.RefreshToken = "" ∧
    (managerWithoutRefreshToken.RefreshToken
        (always (.parsed "" (response "abc" 3600 "" ""))) sampleNow).err
      = some .ErrRefreshTokenNeeded ∧
    (∀ e ∈ (managerWithoutRefreshToken.RefreshToken
        (always (.parsed "" (response "abc" 3600 "" ""))) sampleNow).trace,
      e.isHttpPost = false) :=
  ⟨rfl,
    (refreshToken_without_refresh_token managerWithoutRefreshToken
      (always (.parsed "" (response "abc" 3600 "" ""))) sampleNow rfl).1,
    (refreshToken_without_refresh_token managerWithoutRefreshToken
      (always (.parsed "" (response "abc" 3600 "" ""))) sampleNow rfl).2.2.1⟩

/-! ## Failures keep the cached token -/

/-- C5: whenever `RefreshToken`, `OAuth2` or `AuthorizeRequest` returns an error,
for whatever reason, the manager after the call is the manager before it: the
cached access token and its expiry are unchanged. -/
theorem failed_call_keeps_manager (s : SellingPartner)
    (post : TokenRequest → TokenEndpointOutcome) (now nowRefresh : Time) (code : String)
    (r : Request) :
    ((s.RefreshToken post now).err ≠ none →
      (s.RefreshToken post now).s.accessToken = s.accessToken ∧
      (s.RefreshToken post now).s.accessTokenExpiry = s.accessTokenExpiry) ∧
    ((s.OAuth2 post now code).err ≠ none →
      (s.OAuth2 post now code).s.accessToken = s.accessToken ∧
      (s.OAuth2 post now code).s.accessTokenExpiry = s.accessTokenExpiry) ∧
    ((s.AuthorizeRequest post now nowRefresh r).err ≠ none →
      (s.AuthorizeRequest post now nowRefresh r).s.accessToken = s.accessToken ∧
      (s.AuthorizeRequest post now nowRefresh r).s.accessTokenExpiry = s.accessTokenExpiry) := by
  refine ⟨?_, ?_, ?_⟩
  · intro h
    rw [refreshToken_failure_keeps_state s post now h]
    exact ⟨rfl, rfl⟩
  · intro h
    rw [oauth2_failure_keeps_state s post now code h]
    exact ⟨rfl, rfl⟩
  · cases hu : s.tokenUnusable now
    · rw [authorizeRequest_of_usable s post now nowRefresh r hu]
      intro h
      exact absurd rfl h
    · cases he : (s.RefreshToken post nowRefresh).err with
      | none =>
          rw [authorizeRequest_of_refresh_ok s post now nowRefresh r hu he]
          intro h
          exact absurd rfl h
      | some e =>
          rw [authorizeRequest_of_refresh_error s post now nowRefresh r e hu he]
          intro _
          have hk := refreshToken_failure_keeps_state s post nowRefresh (by simp [he])
          simp only [hk, and_self]

/-- C5, on a manager that holds the token `cached`, in front of an endpoint that
answers with an empty JSON object: all three calls fail and the token is still
`cached`. -/
theorem failed_call_keeps_manager_witness :
    ((managerWith sampleNow).RefreshToken
        (always (.parsed "\x7b\x7d" (response "" 0 "" ""))) sampleNow).s.accessToken = "cached" ∧
    ((managerWith sampleNow).OAuth2
        (always (.parsed "\x7b\x7d" (response "" 0 "" ""))) sampleNow "code").s.accessToken
      = "cached" ∧
    ((managerWith sampleNow).AuthorizeRequest
        (always (.parsed "\x7b\x7d" (response "" 0 "" ""))) sampleNow sampleNow
        bareRequest).s.accessTokenExpiry = sampleNow :=
  ⟨((failed_call_keeps_manager (managerWith sampleNow)
      (always (.parsed "\x7b\x7d" (response "" 0 "" ""))) sampleNow sampleNow "code"
      bareRequest).1 (by decide)).1,
    ((failed_call_keeps_manager (managerWith sampleNow)
      (always (.parsed "\x7b\x7d" (response "" 0 "" ""))) sampleNow sampleNow "code"
      bareRequest).2.1 (by decide)).1,
    ((failed_call_keeps_manager (managerWith sampleNow)
      (always (.parsed "\x7b\x7d" (response "" 0 "" ""))) sampleNow sampleNow "code"
      bareRequest).2.2 (by decide)).2⟩

/-! ## The staleness check -/

/-- C1, as stated, fails on the boundary: a manager with a non-empty token whose
expiry is exactly one minute after `now` satisfies the specification's staleness
condition, and `AuthorizeRequest` does not enter `RefreshToken`. -/
theorem authorizeRequest_boundary_counterexample :
    specTokenUnusable (managerWith (sampleNow.Add Minute)) sampleNow ∧
    ¬ (Event.enterRefreshToken ∈
        ((managerWith (sampleNow.Add Minute)).AuthorizeRequest
          (always (.parsed "" (response "abc" 3600 "" ""))) sampleNow sampleNow
          bareRequest).trace ↔
      specTokenUnusable (managerWith (sampleNow.Add Minute)) sampleNow) := by
  have hs : specTokenUnusable (managerWith (sampleNow.Add Minute)) sampleNow := by
    unfold specTokenUnusable
    decide
  refine ⟨hs, ?_⟩
  intro h
  have hin := h.2 hs
  rw [authorizeRequest_enters_iff] at hin
  revert hin
  decide

/-- C1 (amended): `AuthorizeRequest` enters `RefreshToken` exactly when the cached
token is empty, or the cached expiry is the zero instant, or the expiry minus
one minute is strictly before `now`. So an expiry of `now` plus 30 seconds
triggers a refresh; with a non-empty token and a non-zero expiry, an expiry of
`now` plus 2 minutes does not, and neither does an expiry of exactly `now` plus
1 minute. -/
theorem authorizeRequest_refreshes_iff (s : SellingPartner)
    (post : TokenRequest → TokenEndpointOutcome) (now nowRefresh : Time) (r : Request) :
    (Event.enterRefreshToken ∈ (s.AuthorizeRequest post now nowRefresh r).trace ↔
      (s.accessToken = "" ∨ s.accessTokenExpiry = Time.zero ∨
        s.accessTokenExpiry.nsec - 60 * 1000000000 < now.nsec)) ∧
    (s.accessTokenExpiry = now.Add (30 * Second) →
      Event.enterRefreshToken ∈ (s.AuthorizeRequest post now nowRefresh r).trace) ∧
    (s.accessToken ≠ "" → s.accessTokenExpiry ≠ Time.zero →
      s.accessTokenExpiry = now.Add (2 * Minute) →
      Event.enterRefreshToken ∉ (s.AuthorizeRequest post now nowRefresh r).trace) ∧
    (s.accessToken ≠ "" → s.accessTokenExpiry ≠ Time.zero →
      s.accessTokenExpiry = now.Add (1 * Minute) →
      Event.enterRefreshToken ∉ (s.AuthorizeRequest post now nowRefresh r).trace) := by
  have key := (authorizeRequest_enters_iff s post now nowRefresh r).trans
    (tokenUnusable_iff s now)
  refine ⟨key, ?_, ?_, ?_⟩
  · intro h
    rw [key, h]
    simp only [Time.Add, Second]
    right; right; omega
  · intro h1 h2 h
    rw [key]
    rintro (h' | h' | h')
    · exact h1 h'
    · exact h2 h'
    · rw [h] at h'
      simp only [Time.Add, Minute, Second] at h'
      omega
  · intro h1 h2 h
    rw [key]
    rintro (h' | h' | h')
    · exact h1 h'
    · exact h2 h'
    · rw [h] at h'
      simp only [Time.Add, Minute, Second] at h'
      omega

/-- C1 (amended), on concrete managers: a token that expires 30 seconds after
`now` is refreshed, one that expires 2 minutes after `now` is not. -/
theorem authorizeRequest_refreshes_iff_witness :
    Event.enterRefreshToken ∈
      ((managerWith (sampleNow.Add (30 * Second))).AuthorizeRequest
        (always (.parsed "" (response "abc" 3600 "" ""))) sampleNow sampleNow
        bareRequest).trace ∧
    Event.enterRefreshToken ∉
      ((managerWith (sampleNow.Add (2 * Minute))).AuthorizeRequest
        (always (.parsed "" (response "abc" 3600 "" ""))) sampleNow sampleNow
        bareRequest).trace :=
  ⟨(authorizeRequest_refreshes_iff (managerWith (sampleNow.Add (30 * Second)))
      (always (.parsed "" (response "abc" 3600 "" ""))) sampleNow sampleNow
      bareRequest).2.1 rfl,
    (authorizeRequest_refreshes_iff (managerWith (sampleNow.Add (2 * Minute)))
      (always (.parsed "" (response "abc" 3600 "" ""))) sampleNow sampleNow
      bareRequest).2.2.1 (by decide) (by decide) rfl⟩

/-! ## A successful refresh -/

theorem refreshToken_of_no_token (s : SellingPartner)
    (post : TokenRequest → TokenEndpointOutcome) (now : Time) (body : String)
    (theResp : AccessTokenResponse) (hcfg : s.cfg.RefreshToken ≠ "")
    (hpost : post (refreshTokenRequest s) = .parsed body theResp)
    (htok : theResp.AccessToken = "") :
    s.RefreshToken post now =
      if theResp.Error ≠ "" then
        { s := s, err := some (.errorString theResp.Error),
          trace := [.enterRefreshToken, .httpPost (refreshTokenRequest s),
            .logErrorf ("RefreshToken failed with code " ++ theResp.Error
              ++ ", description " ++ theResp.ErrorDescription)] }
      else
        { s := s, err := some .ErrRefreshTokenFail,
          trace := [.enterRefreshToken, .httpPost (refreshTokenRequest s),
            .logErrorf ("RefreshToken failed with unknown reason. Body: " ++ body)] } := by
  unfold SellingPartner.RefreshToken
  simp only [hcfg, hpost, if_false]
  rw [if_neg (by simp [htok])]

/-- C3, as stated, fails for a request that already carries the header: after a
successful `AuthorizeRequest` with the cached token `cached`, a lookup of
`X-Amz-Access-Token` still gives the value `old` that the request had. -/
theorem authorizeRequest_existing_header_counterexample :
    ((managerWith (sampleNow.Add (2 * Minute))).AuthorizeRequest
        (always (.parsed "" (response "abc" 3600 "" ""))) sampleNow sampleNow
        requestWithToken).err = none ∧
    ((managerWith (sampleNow.Add (2 * Minute))).AuthorizeRequest
        (always (.parsed "" (response "abc" 3600 "" ""))) sampleNow sampleNow
        requestWithToken).s.accessToken = "cached" ∧
    ((managerWith (sampleNow.Add (2 * Minute))).AuthorizeRequest
        (always (.parsed "" (response "abc" 3600 "" ""))) sampleNow sampleNow
        requestWithToken).r.Header.Get "X-Amz-Access-Token" = "old" ∧
    ((managerWith (sampleNow.Add (2 * Minute))).AuthorizeRequest
        (always (.parsed "" (response "abc" 3600 "" ""))) sampleNow sampleNow
        requestWithToken).r.Header.Get "X-Amz-Access-Token" ≠
      ((managerWith (sampleNow.Add (2 * Minute))).AuthorizeRequest
        (always (.parsed "" (response "abc" 3600 "" ""))) sampleNow sampleNow
        requestWithToken).s.accessToken := by
  decide

/-- C3 (amended): when `AuthorizeRequest` returns nil, the values of the request's
`X-Amz-Access-Token` header are the values it had before followed by the
manager's cached access token at return time, and every other header is as it
was; so the last value of the header is the cached token, and a lookup of the
header gives the cached token when the request carried no value for it before. -/
theorem authorizeRequest_appends_token (s : SellingPartner)
    (post : TokenRequest → TokenEndpointOutcome) (now nowRefresh : Time) (r : Request)
    (h : (s.AuthorizeRequest post now nowRefresh r).err = none) :
    (s.AuthorizeRequest post now nowRefresh r).r.Header "X-Amz-Access-Token" =
      r.Header "X-Amz-Access-Token" ++ [(s.AuthorizeRequest post now nowRefresh r).s.accessToken] ∧
    (∀ k, k ≠ "X-Amz-Access-Token" →
      (s.AuthorizeRequest post now nowRefresh r).r.Header k = r.Header k) ∧
    (r.Header "X-Amz-Access-Token" = [] →
      (s.AuthorizeRequest post now nowRefresh r).r.Header.Get "X-Amz-Access-Token" =
        (s.AuthorizeRequest post now nowRefresh r).s.accessToken) := by
  have key : (s.AuthorizeRequest post now nowRefresh r).r.Header =
      r.Header.Add "X-Amz-Access-Token" (s.AuthorizeRequest post now nowRefresh r).s.accessToken := by
    cases hu : s.tokenUnusable now
    · rw [authorizeRequest_of_usable s post now nowRefresh r hu]
    · cases he : (s.RefreshToken post nowRefresh).err with
      | none => rw [authorizeRequest_of_refresh_ok s post now nowRefresh r hu he]
      | some e =>
          rw [authorizeRequest_of_refresh_error s post now nowRefresh r e hu he] at h
          exact absurd h (by simp)
  refine ⟨?_, ?_, ?_⟩
  · rw [key]
    simp [Header.Add]
  · intro k hk
    rw [key]
    simp [Header.Add, hk]
  · intro h0
    unfold Header.Get
    rw [key]
    simp [Header.Add, h0]

/-- C3 (amended), on a request without headers and a manager without token: the
refresh obtains `abc` and a lookup of the header gives `abc`. -/
theorem authorizeRequest_appends_token_witness :
    (freshManager.AuthorizeRequest (always (.parsed "" (response "abc" 3600 "" "")))
        sampleNow sampleNow bareRequest).r.Header.Get "X-Amz-Access-Token" = "abc" :=
  (authorizeRequest_appends_token freshManager
    (always (.parsed "" (response "abc" 3600 "" ""))) sampleNow sampleNow bareRequest
    (by decide)).2.2 rfl

/-! ## A failed refresh inside `AuthorizeRequest` -/

/-- C4, as stated, fails in its last part: when the endpoint answers with an empty
JSON object, `RefreshToken` returns `ErrRefreshTokenFail`, and the error that
`AuthorizeRequest` returns has no cause (`errors.Unwrap` gives nil) and
`errors.Is` does not find `ErrRefreshTokenFail` in it. -/
theorem authorizeRequest_error_has_no_cause_counterexample :
    (freshManager.RefreshToken
        (always (.parsed "\x7b\x7d" (response "" 0 "" ""))) sampleNow).err
      = some .ErrRefreshTokenFail ∧
    (freshManager.AuthorizeRequest
        (always (.parsed "\x7b\x7d" (response "" 0 "" ""))) sampleNow sampleNow
        bareRequest).err
      = some (.errorString "cannot refresh token. Error: refresh token fail") ∧
    ((freshManager.AuthorizeRequest
        (always (.parsed "\x7b\x7d" (response "" 0 "" ""))) sampleNow sampleNow
        bareRequest).err.bind GoError.Unwrap) = none ∧
    ((freshManager.AuthorizeRequest
        (always (.parsed "\x7b\x7d" (response "" 0 "" ""))) sampleNow sampleNow
        bareRequest).err.map (fun e => errorsIs e .ErrRefreshTokenFail)) = some false := by
  decide

/-- C4 (amended): when the cached token is unusable and `RefreshToken` returns the
error `e`, `AuthorizeRequest` returns an error, leaves the request and the
manager exactly as they were, and the returned error is a new error whose
message is `cannot refresh token. Error: ` followed by the message of `e`; it
has no `Unwrap` method, so `e` itself is not recoverable from it. -/
theorem authorizeRequest_refresh_failure (s : SellingPartner)
    (post : TokenRequest → TokenEndpointOutcome) (now nowRefresh : Time) (r : Request)
    (e : GoError) (hu : s.tokenUnusable now = true)
    (he : (s.RefreshToken post nowRefresh).err = some e) :
    (s.AuthorizeRequest post now nowRefresh r).err =
      some (.errorString ("cannot refresh token. Error: " ++ e.Error)) ∧
    (s.AuthorizeRequest post now nowRefresh r).r = r ∧
    (s.AuthorizeRequest post now nowRefresh r).s = s ∧
    ((s.AuthorizeRequest post now nowRefresh r).err.bind GoError.Unwrap) = none := by
  rw [authorizeRequest_of_refresh_error s post now nowRefresh r e hu he]
  refine ⟨rfl, rfl, ?_, rfl⟩
  exact refreshToken_failure_keeps_state s post nowRefresh (by simp [he])

/-- C4 (amended), on a request that carries a header and a manager whose token
has expired, when the transport fails: the request keeps its header values and
the message of the transport error follows the fixed text. -/
theorem authorizeRequest_refresh_failure_witness :
    ((managerWith sampleNow).AuthorizeRequest
        (always (.postFailed (.collaborator "dial tcp: i/o timeout"))) sampleNow sampleNow
        requestWithToken).err
      = some (.errorString "cannot refresh token. Error: dial tcp: i/o timeout") ∧
    ((managerWith sampleNow).AuthorizeRequest
        (always (.postFailed (.collaborator "dial tcp: i/o timeout"))) sampleNow sampleNow
        requestWithToken).r.Header "X-Amz-Access-Token" = ["old"] :=
  ⟨(authorizeRequest_refresh_failure (managerWith sampleNow)
      (always (.postFailed (.collaborator "dial tcp: i/o timeout"))) sampleNow sampleNow
      requestWithToken (.collaborator "dial tcp: i/o timeout") (by decide) rfl).1,
    congrArg (fun q => q.Header "X-Amz-Access-Token")
      (authorizeRequest_refresh_failure (managerWith sampleNow)
        (always (.postFailed (.collaborator "dial tcp: i/o timeout"))) sampleNow sampleNow
        requestWithToken (.collaborator "dial tcp: i/o timeout") (by decide) rfl).2.1⟩

/-! ## Responses without a token -/

/-- C7, as stated, fails for the description: for the response with error
`invalid_grant` and description `bad token`, the error that `RefreshToken`
returns has the message `invalid_grant`, which does not contain `bad token`. -/
theorem refreshToken_error_lacks_description_counterexample :
    (freshManager.RefreshToken
        (always (.parsed "" (response "" 0 "invalid_grant" "bad token"))) sampleNow).err
      = some (.errorString "invalid_grant") ∧
    ((freshManager.RefreshToken
        (always (.parsed "" (response "" 0 "invalid_grant" "bad token"))) sampleNow).err.map
      (fun e => containsText e.Error "invalid_grant")) = some true ∧
    ((freshManager.RefreshToken
        (always (.parsed "" (response "" 0 "invalid_grant" "bad token"))) sampleNow).err.map
      (fun e => containsText e.Error "bad token")) = some false := by
  decide

/-- C7 (amended): when the configured refresh token is non-empty and the response
parses to one with an empty `access_token` and a non-empty `error`,
`RefreshToken` returns a new error whose message is exactly the provider's
error code; the description goes to the log line, which holds the code and the
description; and the manager, so the cached token, is unchanged. -/
theorem refreshToken_provider_error (s : SellingPartner)
    (post : TokenRequest → TokenEndpointOutcome) (now : Time) (body : String)
    (theResp : AccessTokenResponse) (hcfg : s.cfg.RefreshToken ≠ "")
    (hpost : post (refreshTokenRequest s) = .parsed body theResp)
    (htok : theResp.AccessToken = "") (herr : theResp.Error ≠ "") :
    (s.RefreshToken post now).err = some (.errorString theResp.Error) ∧
    (s.RefreshToken post now).s = s ∧
    Event.logErrorf ("RefreshToken failed with code " ++ theResp.Error
        ++ ", description " ++ theResp.ErrorDescription) ∈ (s.RefreshToken post now).trace := by
  rw [refreshToken_of_no_token s post now body theResp hcfg hpost htok, if_pos herr]
  simp

/-- C7 (amended), on the response of the specification and a manager that holds
a token: the error is `invalid_grant` and the token is still `cached`. -/
theorem refreshToken_provider_error_witness :
    ((managerWith sampleNow).RefreshToken
        (always (.parsed "" (response "" 0 "invalid_grant" "bad token"))) sampleNow).err
      = some (.errorString "invalid_grant") ∧
    ((managerWith sampleNow).RefreshToken
        (always (.parsed "" (response "" 0 "invalid_grant" "bad token"))) sampleNow).s
      = managerWith sampleNow :=
  ⟨(refreshToken_provider_error (managerWith sampleNow)
      (always (.parsed "" (response "" 0 "invalid_grant" "bad token"))) sampleNow ""
      (response "" 0 "invalid_grant" "bad token") (by decide) rfl rfl (by decide)).1,
    (refreshToken_provider_error (managerWith sampleNow)
      (always (.parsed "" (response "" 0 "invalid_grant" "bad token"))) sampleNow ""
      (response "" 0 "invalid_grant" "bad token") (by decide) rfl rfl (by decide)).2.1⟩

/-- C9, as stated, fails for the body: for the body of an empty JSON object
`RefreshToken` returns the sentinel `ErrRefreshTokenFail`, whose message is
`refresh token fail` and does not contain the body. -/
theorem refreshToken_unknown_failure_lacks_body_counterexample :
    (freshManager.RefreshToken
        (always (.parsed "\x7b\x7d" (response "" 0 "" ""))) sampleNow).err
      = some .ErrRefreshTokenFail ∧
    ((freshManager.RefreshToken
        (always (.parsed "\x7b\x7d" (response "" 0 "" ""))) sampleNow).err.map GoError.Error)
      = some "refresh token fail" ∧
    ((freshManager.RefreshToken
        (always (.parsed "\x7b\x7d" (response "" 0 "" ""))) sampleNow).err.map
      (fun e => containsText e.Error "\x7b\x7d")) = some false := by
  decide

/-- C9 (amended): when the configured refresh token is non-empty and the response
parses to one with an empty `access_token` and an empty `error`, `RefreshToken`
returns the sentinel `ErrRefreshTokenFail`, the same error for every body; the
raw body goes to the log line; and the manager is unchanged. -/
theorem refreshToken_unknown_failure (s : SellingPartner)
    (post : TokenRequest → TokenEndpointOutcome) (now : Time) (body : String)
    (theResp : AccessTokenResponse) (hcfg : s.cfg.RefreshToken ≠ "")
    (hpost : post (refreshTokenRequest s) = .parsed body theResp)
    (htok : theResp.AccessToken = "") (herr : theResp.Error = "") :
    (s.RefreshToken post now).err = some .ErrRefreshTokenFail ∧
    (s.RefreshToken post now).s = s ∧
    Event.logErrorf ("RefreshToken failed with unknown reason. Body: " ++ body)
      ∈ (s.RefreshToken post now).trace := by
  rw [refreshToken_of_no_token s post now body theResp hcfg hpost htok,
    if_neg (by simp [herr])]
  simp

/-- C9 (amended), on the body of an empty JSON object. -/
theorem refreshToken_unknown_failure_witness :
    (freshManager.RefreshToken
        (always (.parsed "\x7b\x7d" (response "" 0 "" ""))) sampleNow).err
      = some .ErrRefreshTokenFail ∧
    Event.logErrorf "RefreshToken failed with unknown reason. Body: \x7b\x7d" ∈
      (freshManager.RefreshToken
        (always (.parsed "\x7b\x7d" (response "" 0 "" ""))) sampleNow).trace :=
  ⟨(refreshToken_unknown_failure freshManager
      (always (.parsed "\x7b\x7d" (response "" 0 "" ""))) sampleNow "\x7b\x7d"
      (response "" 0 "" "") (by decide) rfl rfl rfl).1,
    (refreshToken_unknown_failure freshManager
      (always (.parsed "\x7b\x7d" (response "" 0 "" ""))) sampleNow "\x7b\x7d"
      (response "" 0 "" "") (by decide) rfl rfl rfl).2.2⟩

/-! ## The authorization-code exchange against the refresh -/

end SellingPartnerSDK
